import Mathlib

/-!
Shallow embedding of the DealHunter price-decision and polling-offset core
(src/scoring.py, src/storage.py, src/engine/pipeline_watch.py,
src/engine/pipeline_commands.py, src/control/telegram_commands.py,
src/notifiers/notifiers.py).

Python floats are modelled as exact rationals (ℚ); `Optional[float]` as
`Option ℚ`; SQL rows as lists; the sqlite tables as in-memory lists with the
WHERE clauses of the source queries reproduced literally.  ISO-8601 UTC
timestamps compare lexicographically in the source, which agrees with
chronological order, so time is modelled as an integer number of seconds.
Python truthiness of an optional float (`None` and `0.0` are falsy) is made
explicit wherever the source relies on it.  Code that can raise is embedded
in `Except`.
-/

namespace DealHunter

/-- Python `x.lower()` on the ASCII strings the code manipulates. -/
def pyLower (s : String) : String := String.mk (s.data.map Char.toLower)

/-- Python `s.strip()`. -/
def pyStrip (s : String) : String :=
  String.mk (((s.data.dropWhile Char.isWhitespace).reverse.dropWhile
    Char.isWhitespace).reverse)

/-- Python `s.startswith(pre)`. -/
def pyStartsWith (s pre : String) : Bool := pre.data.isPrefixOf s.data

/-- Python `s.endswith(suf)`. -/
def pyEndsWith (s suf : String) : Bool :=
  suf.data.reverse.isPrefixOf s.data.reverse

/-- Does `needle` occur as a contiguous sublist of the second argument? -/
def listIsInfix (needle : List Char) : List Char → Bool
  | [] => needle.isEmpty
  | c :: rest => needle.isPrefixOf (c :: rest) || listIsInfix needle rest

/-- Python substring test `needle in hay`. -/
def strContains (hay needle : String) : Bool := listIsInfix needle.data hay.data

/-- Truthiness of an `Optional[float]`: `None` and `0.0` are falsy. -/
def pyFloatTruthy : Option ℚ → Bool
  | none => false
  | some v => v != 0

/-- Truthiness of an `Optional[str]`: `None` and `""` are falsy. -/
def pyStrTruthy : Option String → Bool
  | none => false
  | some s => s != ""

/-! ## Data model (src/models.py, src/storage.py) -/

/-- Embedding of `models.Offer`.  The `extra` dict is projected onto the keys the core
reads: `description`, `has_photos`, `has_details` (truthiness of the stored
values), `seller_reputation` (kept only when numeric, as the source's
`isinstance` check does), and `parse_warning` (written by the watch
pipeline's plausibility guard). -/
structure Offer where
  source : String
  title : String
  url : String
  price_eur : Option ℚ := none
  shipping_eur : Option ℚ := none
  seller : Option String := none
  location : Option String := none
  condition : Option String := none
  extraDescription : String := ""
  extraHasPhotos : Bool := false
  extraHasDetails : Bool := false
  extraSellerReputation : Option ℚ := none
  extraParseWarning : Option String := none
  deriving DecidableEq, Repr

/-- The `Offer.total_eur` property: `price + shipping` when both are present,
else `price`, else undefined. -/
def Offer.total_eur (o : Offer) : Option ℚ :=
  match o.price_eur with
  | none => none
  | some p =>
    match o.shipping_eur with
    | none => some p
    | some s => some (p + s)

/-- Embedding of `storage.Stats`. -/
structure Stats where
  count : ℤ
  min_30d : Option ℚ
  avg_30d : Option ℚ
  min_drop_window : Option ℚ
  deriving DecidableEq, Repr

/-- Embedding of `models.Target` (also the dict entries of `cfg["targets"]`). -/
structure Target where
  name : String
  keywords : List String
  good_price_eur : ℚ
  great_price_eur : ℚ
  deriving DecidableEq, Repr

/-! ## Decision engine (src/scoring.py) -/

/-- The reason strings built by `scoring.py` and `pipeline_watch.py`,
abstracted to constructors carrying exactly the data interpolated into each
f-string (string rendering itself is presentation). -/
inductive Reason where
  | prezzoNonRilevato
  | affareSoglia (total great : ℚ)
  | buonoSoglia (total good : ℚ)
  | dropRapido (mdw avg total discount : ℚ)
  | aspettaStorico (total min30 avg30 : ℚ) (count : ℤ)
  | aspettaSoglie (total good great : ℚ)
  | parseWarningText (msg : String)
  | trustAbove (score minScore : ℚ) (refNew : Option ℚ)
  | trustBelow (score minScore : ℚ)
  deriving DecidableEq, Repr

/-- Embedding of `scoring.Decision`. -/
structure Decision where
  verdict : String
  reason : Reason
  score : ℚ
  deriving DecidableEq, Repr

/-- Embedding of `scoring.decide_new_price_with_history`.  The guard
`stats and stats.avg_30d and stats.min_drop_window` tests Python truthiness,
so a present-but-zero statistic is skipped exactly like an absent one.  In
the `if stats and stats.min_30d` branch the reason f-string interpolates
`stats.avg_30d` with the `:.2f` format; when `avg_30d` is `None` that raises
`TypeError`, embedded here as `.error ()`. -/
def decide_new_price_with_history (offer : Offer) (target_good target_great : ℚ)
    (stats : Option Stats) (rapid_drop_discount : ℚ) : Except Unit Decision :=
  match offer.total_eur with
  | none => .ok ⟨"INFO", .prezzoNonRilevato, 0⟩
  | some total =>
    if total ≤ target_great then .ok ⟨"AFFARE", .affareSoglia total target_great, 0⟩
    else if total ≤ target_good then .ok ⟨"BUONO", .buonoSoglia total target_good, 0⟩
    else
      let rapid : Option Decision :=
        match stats with
        | none => none
        | some s =>
          match s.avg_30d, s.min_drop_window with
          | some avg, some mdw =>
            if avg ≠ 0 ∧ mdw ≠ 0 ∧ mdw ≤ avg * (1 - rapid_drop_discount) ∧
                total ≤ mdw * (102 / 100) then
              some ⟨"BUONO", .dropRapido mdw avg total rapid_drop_discount, 0⟩
            else none
          | _, _ => none
      match rapid with
      | some d => .ok d
      | none =>
        match stats with
        | none => .ok ⟨"ASPETTA", .aspettaSoglie total target_good target_great, 0⟩
        | some s =>
          match s.min_30d with
          | some m =>
            if m ≠ 0 then
              match s.avg_30d with
              | some avg => .ok ⟨"ASPETTA", .aspettaStorico total m avg s.count, 0⟩
              | none => .error ()
            else .ok ⟨"ASPETTA", .aspettaSoglie total target_good target_great, 0⟩
          | none => .ok ⟨"ASPETTA", .aspettaSoglie total target_good target_great, 0⟩

/-- The exact enabling condition of the rapid-drop branch: both statistics
present *and nonzero* (Python truthiness) and both numeric comparisons
true. -/
def rapid_drop_fires (stats : Option Stats) (rdd total : ℚ) : Bool :=
  match stats with
  | none => false
  | some s =>
    match s.avg_30d, s.min_drop_window with
    | some avg, some mdw =>
      decide (avg ≠ 0 ∧ mdw ≠ 0 ∧ mdw ≤ avg * (1 - rdd) ∧ total ≤ mdw * (102 / 100))
    | _, _ => false

/-- The corner in which building the historical-ASPETTA reason raises:
`min_30d` truthy but `avg_30d` absent (the f-string formats `None`). -/
def aspetta_crash (stats : Option Stats) : Bool :=
  match stats with
  | none => false
  | some s =>
    match s.min_30d, s.avg_30d with
    | some m, none => decide (m ≠ 0)
    | _, _ => false

/-- The `cfg["trust_used"]` dictionary, projected onto the keys
`trust_score_used` reads (with the source's defaults for the `.get` calls
on `outlier_discount_vs_new` and `min_score_to_alert`). -/
structure TrustCfg where
  keywords_payment_good : List String := []
  keywords_payment_bad : List String := []
  outlier_discount_vs_new : ℚ := 45 / 100
  min_score_to_alert : ℚ := 70
  deriving DecidableEq, Repr

/-- Embedding of `scoring.trust_score_used`. -/
def trust_score_used (offer : Offer) (cfg : TrustCfg)
    (new_reference_price : Option ℚ) : Decision :=
  let text := pyLower (offer.title ++ " " ++ offer.extraDescription)
  let s1 : ℚ :=
    if cfg.keywords_payment_good.any (fun k => strContains text (pyLower k)) then 25 else 0
  let s2 :=
    if cfg.keywords_payment_bad.any (fun k => strContains text (pyLower k)) then s1 - 35 else s1
  let cond := pyLower ((offer.condition).getD "")
  let s3 := if strContains cond "nuovo" || strContains cond "mai usato" then s2 + 10 else s2
  let s4 :=
    if strContains cond "come nuovo" || strContains cond "eccellente" ||
        strContains cond "perfetto" then s3 + 12 else s3
  let s5 := if offer.extraHasPhotos then s4 + 10 else s4
  let s6 := if offer.extraHasDetails then s5 + 15 else s5
  let s7 :=
    match offer.extraSellerReputation with
    | some rep => s6 + min 30 (max 0 rep)
    | none => s6
  let s8 :=
    match offer.total_eur, new_reference_price with
    | some t, some ref =>
      if t < ref * (1 - cfg.outlier_discount_vs_new) then s7 - 40 else s7 + 15
    | _, _ => s7
  let minScore := cfg.min_score_to_alert
  if s8 ≥ minScore then
    let verdict :=
      match offer.total_eur, new_reference_price with
      | some t, some ref => if t ≤ ref * (75 / 100) then "AFFARE" else "BUONO"
      | _, _ => "BUONO"
    ⟨verdict, .trustAbove s8 minScore new_reference_price, s8⟩
  else ⟨"ASPETTA", .trustBelow s8 minScore, s8⟩

/-! ## Durable store (src/storage.py) -/

/-- One row of the `offers` table. -/
structure OfferRow where
  ts_utc : ℤ
  target_name : String
  source : String
  title : String
  url : String
  total_eur : Option ℚ
  price_eur : Option ℚ
  shipping_eur : Option ℚ
  condition : Option String
  seller : Option String
  location : Option String
  deriving DecidableEq, Repr

/-- Embedding of `storage.insert_offer`: plain `INSERT`, append-only. -/
def insert_offer (db : List OfferRow) (row : OfferRow) : List OfferRow := db ++ [row]

/-- SQL `MIN(total_eur)`: `NULL` over the empty set. -/
def sqlMin : List ℚ → Option ℚ
  | [] => none
  | x :: xs => some (xs.foldl min x)

/-- SQL `AVG(total_eur)`: `NULL` over the empty set. -/
def sqlAvg : List ℚ → Option ℚ
  | [] => none
  | x :: xs => some ((x :: xs).sum / (x :: xs).length)

/-- The `WHERE target_name=? AND ts_utc>=? AND total_eur IS NOT NULL` filter
of `storage.compute_stats`, projected to the selected `total_eur` values. -/
def rowTotals (db : List OfferRow) (target_name : String) (t0 : ℤ) : List ℚ :=
  db.filterMap fun r =>
    if r.target_name = target_name ∧ t0 ≤ r.ts_utc then r.total_eur else none

/-- The same filter with the
`AND source NOT IN ('subito_ingest','subito_imap')` clause used by
`storage.best_new_reference` and `pipeline_watch._compute_stats_new_only`. -/
def rowTotalsNewOnly (db : List OfferRow) (target_name : String) (t0 : ℤ) : List ℚ :=
  db.filterMap fun r =>
    if r.target_name = target_name ∧ t0 ≤ r.ts_utc ∧
        ¬(r.source = "subito_ingest" ∨ r.source = "subito_imap") then
      r.total_eur
    else none

/-- Embedding of `storage.compute_stats` (windows in days / hours from `now`). -/
def compute_stats (db : List OfferRow) (now : ℤ) (target_name : String)
    (window_days drop_hours : ℤ) : Stats :=
  let t0 := now - window_days * 86400
  let t1 := now - drop_hours * 3600
  let rows := rowTotals db target_name t0
  let dropRows := rowTotals db target_name t1
  ⟨rows.length, sqlMin rows, sqlAvg rows, sqlMin dropRows⟩

/-- Embedding of `pipeline_watch._compute_stats_new_only`: same aggregates restricted to
non-Subito (i.e. "new") sources. -/
def _compute_stats_new_only (db : List OfferRow) (now : ℤ) (target_name : String)
    (window_days drop_hours : ℤ) : Stats :=
  let t0 := now - window_days * 86400
  let t1 := now - drop_hours * 3600
  let rows := rowTotalsNewOnly db target_name t0
  let dropRows := rowTotalsNewOnly db target_name t1
  ⟨rows.length, sqlMin rows, sqlAvg rows, sqlMin dropRows⟩

/-- Embedding of `storage.best_new_reference`: minimum recent non-Subito total, or null. -/
def best_new_reference (db : List OfferRow) (now : ℤ) (target_name : String)
    (window_days : ℤ) : Option ℚ :=
  sqlMin (rowTotalsNewOnly db target_name (now - window_days * 86400))

/-- One row of the `settings` table (`key` is UNIQUE). -/
structure Setting where
  key : String
  value : String
  actor : String
  deriving DecidableEq, Repr

abbrev SettingsDB := List Setting

/-- Embedding of `storage.set_setting`: `INSERT OR REPLACE` keyed on the UNIQUE `key`. -/
def set_setting (db : SettingsDB) (key value actor : String) : SettingsDB :=
  if db.any (fun s => s.key = key) then
    db.map fun s => if s.key = key then ⟨key, value, actor⟩ else s
  else db ++ [⟨key, value, actor⟩]

/-- Insertion into a key-sorted list (for `ORDER BY key`). -/
def insertByKey (s : Setting) : SettingsDB → SettingsDB
  | [] => [s]
  | t :: ts => if s.key < t.key then s :: t :: ts else t :: insertByKey s ts

/-- Embedding of `storage.list_all_settings`: all rows, `ORDER BY key`. -/
def list_all_settings (db : SettingsDB) : SettingsDB :=
  db.foldr insertByKey []

/-! ## Watch pipeline (src/engine/pipeline_watch.py)

The out-of-scope collaborators (scrapers, IMAP ingestion, message transport)
enter the cycle only as the list of produced `Offer`s and as the emitted
notifications; display-only enrichment of `offer.extra`
(`is_used`, `ref_new_eur`, `trust_score`, `stats_*`) feeds the message
builder and is elided. -/

/-- Embedding of `pipeline_watch.match_target`: first target with a keyword occurring in
the lowered title. -/
def match_target (offer : Offer) (targets : List Target) : Option Target :=
  targets.find? fun t =>
    t.keywords.any fun k => strContains (pyLower offer.title) (pyLower k)

/-- Embedding of `pipeline_watch._is_used_offer`. -/
def _is_used_offer (off : Offer) : Bool :=
  if off.source = "subito_ingest" ∨ off.source = "subito_imap" then true
  else
    let cond := pyLower (off.condition.getD "")
    strContains cond "used" || strContains cond "usato" || strContains cond "seconda mano"

/-- Embedding of the nested `_is_plausible_new_price` guard of `pipeline_watch.run_once`. -/
def _is_plausible_new_price (total target_great : ℚ) : Bool :=
  total ≥ target_great * (50 / 100)

/-- The `parse_warning` message set by the plausibility guard. -/
def parseWarnMsg : String :=
  "Prezzo NEW troppo basso (parse glitch). Skippato (no storico, no alert)."

/-- One matched `(off, t)` pair of the storage loop. -/
structure MatchedOffer where
  offer : Offer
  target : Target
  deriving DecidableEq, Repr

/-- The `offers` row inserted for an accepted offer. -/
def rowOfOffer (now : ℤ) (target_name : String) (off : Offer) : OfferRow :=
  ⟨now, target_name, off.source, off.title, off.url, off.total_eur,
    off.price_eur, off.shipping_eur, off.condition, off.seller, off.location⟩

/-- One iteration of the `for off in offers` storage loop of
`pipeline_watch.run_once`: match, plausibility-guard "new" scraped prices,
insert accepted rows, keep flagged ones for console INFO only. -/
def storeStep (targets : List Target) (now : ℤ)
    (acc : List OfferRow × List MatchedOffer) (off : Offer) :
    List OfferRow × List MatchedOffer :=
  match match_target off targets with
  | none => acc
  | some t =>
    let flagged : Bool :=
      match off.total_eur with
      | some tot =>
        decide ((off.source = "trovaprezzi" ∨ off.source = "idealo") ∧
          ¬ _is_plausible_new_price tot t.great_price_eur)
      | none => false
    let off' := if flagged then { off with extraParseWarning := some parseWarnMsg } else off
    if flagged then (acc.1, acc.2 ++ [⟨off', t⟩])
    else (insert_offer acc.1 (rowOfOffer now t.name off'), acc.2 ++ [⟨off', t⟩])

/-- The notifier calls a cycle emits, in order. -/
inductive Notification where
  | console (o : Offer) (d : Decision)
  | filelog (o : Offer) (d : Decision)
  | telegram (o : Offer) (d : Decision)
  deriving DecidableEq, Repr

/-- Watch-cycle configuration: the `cfg` keys `run_once`'s notifier loop
reads (notifier switches, Telegram credentials resolved from the
environment, decision parameters, trust config). -/
structure WatchCfg where
  console_enabled : Bool := true
  file_log_enabled : Bool := true
  tg_enabled : Bool := false
  tg_token : String := ""
  tg_chat : String := ""
  window_days : ℤ := 30
  drop_hours : ℤ := 48
  rapid_drop_discount : ℚ := 8 / 100
  trust_cfg : TrustCfg := {}
  deriving Repr

/-- Console + file log + (conditional) Telegram emission for one decided
offer, in the order of `pipeline_watch.run_once`; remote notification only
for AFFARE / BUONO verdicts. -/
def standard_notifications (cfg : WatchCfg) (off : Offer) (d : Decision) :
    List Notification :=
  (if cfg.console_enabled then [.console off d] else []) ++
  (if cfg.file_log_enabled then [.filelog off d] else []) ++
  (if cfg.tg_enabled ∧ cfg.tg_token ≠ "" ∧ cfg.tg_chat ≠ "" ∧
      (d.verdict = "AFFARE" ∨ d.verdict = "BUONO") then [.telegram off d] else [])

/-- The used-item reference price of `pipeline_watch.run_once`:
`best_new_reference(...) or float(t["good_price_eur"])` — the Python `or`
falls back to the target's good threshold when the query returns `None`
*or* the falsy `0.0`. -/
def used_reference_price (db : List OfferRow) (now : ℤ) (t : Target) : ℚ :=
  match best_new_reference db now t.name 7 with
  | none => t.good_price_eur
  | some v => if v = 0 then t.good_price_eur else v

/-- One iteration of the `for off, t in matched` notifier loop of
`pipeline_watch.run_once`. -/
def notifyStep (cfg : WatchCfg) (db : List OfferRow) (now : ℤ) (m : MatchedOffer) :
    Except Unit (List Notification) :=
  let off := m.offer
  let t := m.target
  if (off.source = "trovaprezzi" ∨ off.source = "idealo") ∧
      pyStrTruthy off.extraParseWarning then
    .ok (if cfg.console_enabled then
          [.console off ⟨"INFO", .parseWarningText (off.extraParseWarning.getD ""), 0⟩]
        else [])
  else if pyEndsWith off.source "_error" then .ok []
  else if _is_used_offer off then
    let d := trust_score_used off cfg.trust_cfg (some (used_reference_price db now t))
    .ok (standard_notifications cfg off d)
  else
    let stats := _compute_stats_new_only db now t.name cfg.window_days cfg.drop_hours
    match decide_new_price_with_history off t.good_price_eur t.great_price_eur
        (some stats) cfg.rapid_drop_discount with
    | .error e => .error e
    | .ok d => .ok (standard_notifications cfg off d)

/-- The notifier loop over all matched offers. -/
def notifyAll (cfg : WatchCfg) (db : List OfferRow) (now : ℤ) :
    List MatchedOffer → Except Unit (List Notification)
  | [] => .ok []
  | m :: ms => do
    let ns ← notifyStep cfg db now m
    let rest ← notifyAll cfg db now ms
    .ok (ns ++ rest)

/-- Embedding of `pipeline_watch.run_once`, from the produced offers onward: storage loop
(with plausibility guard) followed by the decide-and-notify loop over the
committed store. -/
def pipeline_watch_run_once (cfg : WatchCfg) (targets : List Target)
    (db : List OfferRow) (now : ℤ) (offers : List Offer) :
    Except Unit (List OfferRow × List Notification) :=
  let sm := offers.foldl (storeStep targets now) (db, [])
  match notifyAll cfg sm.1 now sm.2 with
  | .error e => .error e
  | .ok ns => .ok (sm.1, ns)

/-! ## Remote command channel
(src/control/telegram_commands.py, src/engine/pipeline_commands.py,
src/notifiers/notifiers.py) -/

/-- Python `str.split()` on a character list: split on whitespace runs,
dropping empties (`acc` holds the current token, reversed). -/
def pySplitAux : List Char → List Char → List String
  | [], acc => if acc.isEmpty then [] else [String.mk acc.reverse]
  | c :: cs, acc =>
    if c.isWhitespace then
      if acc.isEmpty then pySplitAux cs [] else String.mk acc.reverse :: pySplitAux cs []
    else pySplitAux cs (c :: acc)

/-- Python `str.split()`: split on whitespace runs, dropping empties. -/
def pySplit (s : String) : List String := pySplitAux s.data []

/-- Embedding of `TelegramCommandHandler._is_valid_key`: the full-line regex match
allowing ASCII alphanumerics, underscore, hyphen and forward slash. -/
def _is_valid_key (key : String) : Bool :=
  key ≠ "" && key.data.all fun c => c.isAlphanum || c = '_' || c = '-' || c = '/'

/-- A terminating-decimal fragment of Python `float(raw)`:
optional sign, digits, optional `.digits`.  (Exponents, `inf`/`nan` and
underscore separators are outside what the command channel receives.) -/
def splitOnDot (l : List Char) : List (List Char) :=
  l.foldr
    (fun c acc =>
      if c = '.' then [] :: acc
      else
        match acc with
        | [] => [[c]]
        | t :: ts => (c :: t) :: ts)
    [[]]

def parsePyFloat? (raw : String) : Option ℚ :=
  let s := pyStrip raw
  let core :=
    if pyStartsWith s "-" || pyStartsWith s "+" then s.data.drop 1 else s.data
  let parts := splitOnDot core
  let toDigits (d : List Char) : Option ℕ :=
    if d ≠ [] && d.all Char.isDigit then
      some (d.foldl (fun a c => a * 10 + (c.toNat - 48)) 0)
    else none
  let mag : Option ℚ :=
    match parts with
    | [w] => (toDigits w).map fun n => (n : ℚ)
    | [w, f] =>
      match toDigits w, toDigits f with
      | some n, some m => some ((n : ℚ) + (m : ℚ) / ((10 : ℚ) ^ f.length))
      | _, _ => none
    | _ => none
  mag.map fun q => if pyStartsWith s "-" then -q else q

/-- Two-decimal rendering for `f"{x:.2f}"` (rounding-mode differences of the
underlying binary float are below the resolution any claim exercises). -/
def twoDecimalString (x : ℚ) : String :=
  let n : ℤ := ⌊x * 100 + 1 / 2⌋
  let a := n.natAbs
  let frac := a % 100
  (if n < 0 then "-" else "") ++ toString (a / 100) ++ "." ++
    (if frac < 10 then "0" ++ toString frac else toString frac)

/-- Embedding of `TelegramCommandHandler._normalize_numeric_string`. -/
def _normalize_numeric_string (x : ℚ) : String :=
  if x.den = 1 then toString x.num else twoDecimalString x

/-- The handler's response strings, abstracted to constructors carrying the
interpolated data. -/
inductive TgResponse where
  | prices (settings : SettingsDB)
  | usageSetprice
  | invalidKey (key : String)
  | updated (key value : String)
  | unknown (command : String)
  deriving DecidableEq, Repr

/-- Embedding of `TelegramCommandHandler.handle_setprice` (the `set_setting` call cannot
fail in the in-memory store, so the caught-exception response is absent). -/
def handle_setprice (args : List String) (actor : String) (db : SettingsDB) :
    Option TgResponse × SettingsDB :=
  match args with
  | key :: raw_value :: _ =>
    if ¬ _is_valid_key key then (some (.invalidKey key), db)
    else
      let value :=
        match parsePyFloat? raw_value with
        | some q => _normalize_numeric_string q
        | none => raw_value
      (some (.updated key value), set_setting db key value actor)
  | _ => (some .usageSetprice, db)

/-- Embedding of `TelegramCommandHandler.parse_and_handle`. -/
def parse_and_handle (message actor : String) (db : SettingsDB) :
    Option TgResponse × SettingsDB :=
  let message := pyStrip message
  if ¬ pyStartsWith message "/" then (none, db)
  else
    let parts := pySplit message
    let command := parts.headD ""
    let args := parts.tail
    if command = "/prices" then (some (.prices (list_all_settings db)), db)
    else if command = "/setprice" then handle_setprice args actor db
    else (some (.unknown command), db)

/-- One polled update: `update.get("update_id", 0)` plus the optional
`message` with its optional `text` and stringified `chat.id`. -/
structure Message where
  text : Option String := none
  chat_id : Option String := none
  deriving DecidableEq, Repr

structure Update where
  update_id : ℤ := 0
  message : Option Message := none
  deriving DecidableEq, Repr

/-- The `str(message.get("chat", {}).get("id", "") or "")` normalisation. -/
def incomingChatId (u : Update) : String :=
  match u.message with
  | none => ""
  | some m => m.chat_id.getD ""

/-- Embedding of `pipeline_commands._process_update`: guards, command handling, and the
reply gate.  `parse_and_handle` — hence any settings mutation — runs
*before* the chat-id comparison; only the outgoing reply is gated on
`str(allowed_chat_id) != incoming_chat_id`, and a mismatch just returns
(the surrounding `try/except` additionally swallows any error).  Replies are
`(chat_id, response)` pairs. -/
def _process_update (u : Update) (db : SettingsDB) (allowed_chat_id : String) :
    SettingsDB × List (String × TgResponse) :=
  match u.message with
  | none => (db, [])
  | some m =>
    let text := pyStrip (m.text.getD "")
    if text = "" then (db, [])
    else
      let rdb := parse_and_handle text "telegram_user" db
      match rdb.1 with
      | none => (rdb.2, [])
      | some response =>
        let incoming := m.chat_id.getD ""
        if incoming = "" then (rdb.2, [])
        else if allowed_chat_id ≠ incoming then (rdb.2, [])
        else (rdb.2, [(incoming, response)])

/-- The persisted offset state file `.telegram_state.json`: absent,
unreadable/non-JSON, or holding an offset. -/
inductive TgState where
  | missing
  | malformed
  | stored (offset : ℤ)
  deriving DecidableEq, Repr

/-- Embedding of `pipeline_commands._load_offset`: stored value, defaulting to `0` on a
missing or corrupt state file (every failure path is swallowed). -/
def _load_offset : TgState → ℤ
  | .missing => 0
  | .malformed => 0
  | .stored n => n

/-- Outcome of the state-file write attempted by `_save_offset`: success,
a failure before the file is touched (`makedirs`/`open` raising), or a
failure after truncation leaving a torn file. -/
inductive WriteOutcome where
  | ok
  | failBeforeWrite
  | failTorn
  deriving DecidableEq, Repr

/-- Embedding of `pipeline_commands._save_offset`: the body is wrapped in
`try/except Exception`, so it never propagates an error — a failed write
only logs and leaves the file either untouched or torn. -/
def _save_offset (st : TgState) (offset : ℤ) (w : WriteOutcome) : TgState :=
  match w with
  | .ok => .stored offset
  | .failBeforeWrite => st
  | .failTorn => .malformed

/-- Python `max(u.get("update_id", 0) for u in updates)` (batch known
non-empty at the call site). -/
def maxUpdateId : List Update → ℤ
  | [] => 0
  | u :: us => us.foldl (fun a v => max a v.update_id) u.update_id

/-- Embedding of `notifiers.get_telegram_updates` after the HTTP layer: `apiResult` is
the decoded `result` list, `none` when the request failed or `ok` was
false.  Non-empty batches yield `(batch, max update_id + 1)`; otherwise the
offset is returned unchanged. -/
def get_telegram_updates (apiResult : Option (List Update)) (offset : ℤ) :
    List Update × ℤ :=
  match apiResult with
  | none => ([], offset)
  | some [] => ([], offset)
  | some us => (us, maxUpdateId us + 1)

/-- Observable order of the offset-relevant actions of one command cycle. -/
inductive CmdEvent where
  | saved (offset : ℤ)
  | processed (u : Update)
  deriving DecidableEq, Repr

structure CmdCycleResult where
  state : TgState
  settings : SettingsDB
  sends : List (String × TgResponse)
  trace : List CmdEvent
  deriving DecidableEq, Repr

/-- The body of the `for update in updates` loop of
`pipeline_commands.run_once`, threading the settings store, collected
replies and the event trace. -/
def cmdStep (allowed_chat_id : String)
    (acc : SettingsDB × List (String × TgResponse) × List CmdEvent) (u : Update) :
    SettingsDB × List (String × TgResponse) × List CmdEvent :=
  let r := _process_update u acc.1 allowed_chat_id
  (r.1, acc.2.1 ++ r.2, acc.2.2 ++ [CmdEvent.processed u])

/-- Embedding of `pipeline_commands.run_once` from the fetch onward: load the offset,
fetch, persist the new offset first when the batch is non-empty, then
process every update of the batch in order. -/
def commands_run_once (st : TgState) (db : SettingsDB) (allowed_chat_id : String)
    (apiResult : Option (List Update)) (w : WriteOutcome) : CmdCycleResult :=
  let offset := _load_offset st
  let fetched := get_telegram_updates apiResult offset
  let updates := fetched.1
  let new_offset := fetched.2
  let saved := if updates.isEmpty then (st, ([] : List CmdEvent))
               else (_save_offset st new_offset w, [CmdEvent.saved new_offset])
  let done := updates.foldl (cmdStep allowed_chat_id) (db, [], saved.2)
  ⟨saved.1, done.1, done.2.1, done.2.2⟩

/-! ## Theorems -/

/-- C4: for every offer with a defined total and any stats value (present or
absent), `total <= targetGreat` yields AFFARE and
`targetGreat < total <= targetGood` yields BUONO — the static thresholds are
checked first and no history-based signal overrides them. -/
theorem C4_static_thresholds_first (offer : Offer) (target_good target_great : ℚ)
    (stats : Option Stats) (rdd t : ℚ) (ht : offer.total_eur = some t) :
    (t ≤ target_great →
      decide_new_price_with_history offer target_good target_great stats rdd =
        .ok ⟨"AFFARE", .affareSoglia t target_great, 0⟩) ∧
    (target_great < t → t ≤ target_good →
      decide_new_price_with_history offer target_good target_great stats rdd =
        .ok ⟨"BUONO", .buonoSoglia t target_good, 0⟩) := by
  unfold decide_new_price_with_history
  rw [ht]
  constructor
  · intro h
    simp [h]
  · intro h1 h2
    simp [not_le.mpr h1, h2]

/-- C4 witness. -/
theorem C4_static_thresholds_first_witness :
    ({ source := "trovaprezzi", title := "t", url := "u",
        price_eur := some 800 } : Offer).total_eur = some 800 ∧
    ((800 : ℚ) ≤ 850 →
      decide_new_price_with_history
        { source := "trovaprezzi", title := "t", url := "u", price_eur := some 800 }
        950 850 none (8 / 100) = .ok ⟨"AFFARE", .affareSoglia 800 850, 0⟩) ∧
    ((850 : ℚ) < 800 → (800 : ℚ) ≤ 950 →
      decide_new_price_with_history
        { source := "trovaprezzi", title := "t", url := "u", price_eur := some 800 }
        950 850 none (8 / 100) = .ok ⟨"BUONO", .buonoSoglia 800 950, 0⟩) :=
  ⟨by decide, C4_static_thresholds_first _ 950 850 none (8 / 100) 800 (by decide)⟩

/-- All totals selected by `rowTotals` at a window start `t1 ≥ t0` are
absent when no row qualifies at `t0`. -/
theorem rowTotals_eq_nil (db : List OfferRow) (target : String) {t0 t1 : ℤ}
    (h01 : t0 ≤ t1)
    (hempty : ∀ r ∈ db,
      ¬(r.target_name = target ∧ t0 ≤ r.ts_utc ∧ r.total_eur ≠ none)) :
    rowTotals db target t1 = [] := by
  unfold rowTotals
  rw [List.filterMap_eq_nil_iff]
  intro r hr
  by_cases hc : r.target_name = target ∧ t1 ≤ r.ts_utc
  · rw [if_pos hc]
    cases h : r.total_eur with
    | none => rfl
    | some v =>
      exact absurd ⟨hc.1, le_trans h01 hc.2, by simp [h]⟩ (hempty r hr)
  · rw [if_neg hc]

/-- Same statement for the new-only variant of the filter. -/
theorem rowTotalsNewOnly_eq_nil (db : List OfferRow) (target : String) {t0 t1 : ℤ}
    (h01 : t0 ≤ t1)
    (hempty : ∀ r ∈ db,
      ¬(r.target_name = target ∧ t0 ≤ r.ts_utc ∧ r.total_eur ≠ none)) :
    rowTotalsNewOnly db target t1 = [] := by
  unfold rowTotalsNewOnly
  rw [List.filterMap_eq_nil_iff]
  intro r hr
  by_cases hc : r.target_name = target ∧ t1 ≤ r.ts_utc ∧
      ¬(r.source = "subito_ingest" ∨ r.source = "subito_imap")
  · rw [if_pos hc]
    cases h : r.total_eur with
    | none => rfl
    | some v =>
      exact absurd ⟨hc.1, le_trans h01 hc.2.1, by simp [h]⟩ (hempty r hr)
  · rw [if_neg hc]

/-- C7: when no observation matches the target in the trailing window with a
non-null total, the stats aggregates (both the generic and the new-only
variant) return count 0 and null min/avg/drop-minimum — computed totally,
with null rather than 0 as the empty-set sentinel. -/
theorem C7_empty_stats_all_null (db : List OfferRow) (now : ℤ) (target : String)
    (window_days drop_hours : ℤ)
    (hwin : drop_hours * 3600 ≤ window_days * 86400)
    (hempty : ∀ r ∈ db,
      ¬(r.target_name = target ∧ now - window_days * 86400 ≤ r.ts_utc ∧
        r.total_eur ≠ none)) :
    compute_stats db now target window_days drop_hours = ⟨0, none, none, none⟩ ∧
    _compute_stats_new_only db now target window_days drop_hours =
      ⟨0, none, none, none⟩ := by
  have h01 : now - window_days * 86400 ≤ now - drop_hours * 3600 := by omega
  have e1 := rowTotals_eq_nil db target le_rfl hempty
  have e2 := rowTotals_eq_nil db target h01 hempty
  have e3 := rowTotalsNewOnly_eq_nil db target le_rfl hempty
  have e4 := rowTotalsNewOnly_eq_nil db target h01 hempty
  constructor
  · simp only [compute_stats, e1, e2]
    rfl
  · simp only [_compute_stats_new_only, e3, e4]
    rfl

/-- C7 witness. -/
theorem C7_empty_stats_all_null_witness :
    ((48 : ℤ) * 3600 ≤ 30 * 86400) ∧
    (∀ r ∈ ([⟨0, "other", "trovaprezzi", "t", "u", some 900, some 900, none,
        none, none, none⟩] : List OfferRow),
      ¬(r.target_name = "rtx-5090" ∧ (1000000 : ℤ) - 30 * 86400 ≤ r.ts_utc ∧
        r.total_eur ≠ none)) ∧
    compute_stats [⟨0, "other", "trovaprezzi", "t", "u", some 900, some 900, none,
        none, none, none⟩] 1000000 "rtx-5090" 30 48 = ⟨0, none, none, none⟩ ∧
    _compute_stats_new_only [⟨0, "other", "trovaprezzi", "t", "u", some 900,
        some 900, none, none, none, none⟩] 1000000 "rtx-5090" 30 48 =
      ⟨0, none, none, none⟩ :=
  ⟨by decide, by decide,
    C7_empty_stats_all_null _ 1000000 "rtx-5090" 30 48 (by decide) (by decide)⟩

/-- C2 counterexample: total 100 above targetGood 50 above targetGreat 40,
`avg_30d` absent, `min_drop_window` present — the claim says the decision is
ASPETTA, but the code raises a TypeError while formatting the reason
(`min_30d` is truthy and the f-string formats the absent `avg_30d`). -/
theorem C2_counterexample :
    decide_new_price_with_history
      { source := "trovaprezzi", title := "t", url := "u", price_eur := some 100 }
      50 40 (some ⟨1, some 5, none, some 90⟩) (8 / 100) = .error () := by
  rfl

/-- C2 (amended): for a defined total strictly above both static thresholds
(total > targetGood > targetGreat), the decision is the rapid-drop BUONO
exactly when `avg_30d` and `min_drop_window` are both present *and nonzero*
(Python truthiness) and both numeric conditions hold; otherwise the decision
is ASPETTA — except in the corner where `min_30d` is present and nonzero
while `avg_30d` is absent, where reason formatting raises instead. -/
theorem C2_rapid_drop_exact (offer : Offer) (target_good target_great rdd t : ℚ)
    (stats : Option Stats) (ht : offer.total_eur = some t)
    (h1 : target_good < t) (h2 : target_great < target_good) :
    (rapid_drop_fires stats rdd t = true →
      ∃ s avg mdw, stats = some s ∧ s.avg_30d = some avg ∧
        s.min_drop_window = some mdw ∧
        decide_new_price_with_history offer target_good target_great stats rdd =
          .ok ⟨"BUONO", .dropRapido mdw avg t rdd, 0⟩) ∧
    (rapid_drop_fires stats rdd t = false → aspetta_crash stats = true →
      decide_new_price_with_history offer target_good target_great stats rdd =
        .error ()) ∧
    (rapid_drop_fires stats rdd t = false → aspetta_crash stats = false →
      ∃ r, decide_new_price_with_history offer target_good target_great stats rdd =
        .ok ⟨"ASPETTA", r, 0⟩) := by
  have hng : ¬ t ≤ target_great := not_le.mpr (h2.trans h1)
  have hngo : ¬ t ≤ target_good := not_le.mpr h1
  simp only [decide_new_price_with_history, rapid_drop_fires, aspetta_crash, ht]
  rw [if_neg hng, if_neg hngo]
  cases stats with
  | none => simp
  | some s =>
    obtain ⟨c, m30, a30, mdw⟩ := s
    cases a30 with
    | none =>
      cases m30 with
      | none => simp
      | some m =>
        by_cases hm : m = 0 <;> simp [hm]
    | some avg =>
      cases mdw with
      | none =>
        cases m30 with
        | none => simp
        | some m =>
          by_cases hm : m = 0 <;> simp [hm]
      | some w =>
        by_cases hfire : avg ≠ 0 ∧ w ≠ 0 ∧ w ≤ avg * (1 - rdd) ∧ t ≤ w * (102 / 100)
        · simp [hfire]
        · cases m30 with
          | none => simp [hfire]
          | some m =>
            by_cases hm : m = 0 <;> simp [hfire, hm]

/-- C2 witness. -/
theorem C2_rapid_drop_exact_witness :
    ({ source := "trovaprezzi", title := "t", url := "u",
        price_eur := some 915 } : Offer).total_eur = some 915 ∧
    ((900 : ℚ) < 915 ∧ (850 : ℚ) < 900) ∧
    (rapid_drop_fires (some ⟨5, some 900, some 1000, some 900⟩) (8 / 100) 915 = true →
      ∃ s avg mdw, (some ⟨5, some 900, some 1000, some 900⟩ : Option Stats) = some s ∧
        s.avg_30d = some avg ∧ s.min_drop_window = some mdw ∧
        decide_new_price_with_history
          { source := "trovaprezzi", title := "t", url := "u", price_eur := some 915 }
          900 850 (some ⟨5, some 900, some 1000, some 900⟩) (8 / 100) =
          .ok ⟨"BUONO", .dropRapido mdw avg 915 (8 / 100), 0⟩) ∧
    (rapid_drop_fires (some ⟨5, some 900, some 1000, some 900⟩) (8 / 100) 915 = false →
      aspetta_crash (some ⟨5, some 900, some 1000, some 900⟩) = true →
      decide_new_price_with_history
        { source := "trovaprezzi", title := "t", url := "u", price_eur := some 915 }
        900 850 (some ⟨5, some 900, some 1000, some 900⟩) (8 / 100) = .error ()) ∧
    (rapid_drop_fires (some ⟨5, some 900, some 1000, some 900⟩) (8 / 100) 915 = false →
      aspetta_crash (some ⟨5, some 900, some 1000, some 900⟩) = false →
      ∃ r, decide_new_price_with_history
        { source := "trovaprezzi", title := "t", url := "u", price_eur := some 915 }
        900 850 (some ⟨5, some 900, some 1000, some 900⟩) (8 / 100) =
        .ok ⟨"ASPETTA", r, 0⟩) := by
  refine ⟨by decide, ⟨by norm_num, by norm_num⟩, ?_⟩
  have h := C2_rapid_drop_exact
    { source := "trovaprezzi", title := "t", url := "u", price_eur := some 915 }
    900 850 (8 / 100) 915 (some ⟨5, some 900, some 1000, some 900⟩)
    (by decide) (by norm_num) (by norm_num)
  exact h

/-- C10 counterexample: with `min_30d = 5` (nonzero), `avg_30d = 0.0` yields
the historical ASPETTA while an absent `avg_30d` raises a TypeError — the
two decisions are not the same, refuting the unqualified zero-equals-missing
claim. -/
theorem C10_counterexample :
    decide_new_price_with_history
        { source := "trovaprezzi", title := "t", url := "u", price_eur := some 100 }
        50 40 (some ⟨1, some 5, some 0, none⟩) (8 / 100) =
      .ok ⟨"ASPETTA", .aspettaStorico 100 5 0 1, 0⟩ ∧
    decide_new_price_with_history
        { source := "trovaprezzi", title := "t", url := "u", price_eur := some 100 }
        50 40 (some ⟨1, some 5, none, none⟩) (8 / 100) = .error () := by
  constructor <;> rfl

/-- C10 (amended): for a defined total above both static thresholds, a zero
`min_drop_window` behaves exactly like an absent one; a zero `avg_30d`
behaves exactly like an absent one provided `min_30d` is itself zero or
absent (when `min_30d` is present and nonzero the absent-`avg_30d` case
raises while the zero case returns the historical ASPETTA); and a zero
`min_30d` produces the stats-free ASPETTA reason whenever the rapid-drop
branch does not fire. -/
theorem C10_zero_stats_like_missing (offer : Offer)
    (target_good target_great rdd t : ℚ) (s : Stats)
    (ht : offer.total_eur = some t) (hg : target_good < t)
    (hgr : target_great < t) :
    (decide_new_price_with_history offer target_good target_great
        (some { s with min_drop_window := some 0 }) rdd =
      decide_new_price_with_history offer target_good target_great
        (some { s with min_drop_window := none }) rdd) ∧
    ((s.min_30d = none ∨ s.min_30d = some 0) →
      decide_new_price_with_history offer target_good target_great
          (some { s with avg_30d := some 0 }) rdd =
        decide_new_price_with_history offer target_good target_great
          (some { s with avg_30d := none }) rdd) ∧
    (s.min_30d = some 0 → rapid_drop_fires (some s) rdd t = false →
      decide_new_price_with_history offer target_good target_great (some s) rdd =
        .ok ⟨"ASPETTA", .aspettaSoglie t target_good target_great, 0⟩) := by
  have hng : ¬ t ≤ target_great := not_le.mpr hgr
  have hngo : ¬ t ≤ target_good := not_le.mpr hg
  obtain ⟨c, m30, a30, mdw⟩ := s
  simp only [decide_new_price_with_history, rapid_drop_fires, ht]
  rw [if_neg hng, if_neg hngo, if_neg hng, if_neg hngo]
  refine ⟨?_, ?_, ?_⟩
  · cases a30 <;> simp
  · rintro (hm | hm) <;> subst hm <;> cases mdw <;> simp_all
  · rintro rfl hfire
    rw [if_neg hng, if_neg hngo]
    cases a30 with
    | none => simp
    | some avg =>
      cases mdw with
      | none => simp
      | some w =>
        simp only [decide_eq_false_iff_not] at hfire
        simp [hfire]

/-- C10 witness. -/
theorem C10_zero_stats_like_missing_witness :
    ({ source := "trovaprezzi", title := "t", url := "u",
        price_eur := some 100 } : Offer).total_eur = some 100 ∧
    ((50 : ℚ) < 100 ∧ (40 : ℚ) < 100) ∧
    ((decide_new_price_with_history
        { source := "trovaprezzi", title := "t", url := "u", price_eur := some 100 }
        50 40 (some { (⟨2, some 0, some 60, some 55⟩ : Stats) with
          min_drop_window := some 0 }) (8 / 100) =
      decide_new_price_with_history
        { source := "trovaprezzi", title := "t", url := "u", price_eur := some 100 }
        50 40 (some { (⟨2, some 0, some 60, some 55⟩ : Stats) with
          min_drop_window := none }) (8 / 100)) ∧
    (((⟨2, some 0, some 60, some 55⟩ : Stats).min_30d = none ∨
        (⟨2, some 0, some 60, some 55⟩ : Stats).min_30d = some 0) →
      decide_new_price_with_history
          { source := "trovaprezzi", title := "t", url := "u", price_eur := some 100 }
          50 40 (some { (⟨2, some 0, some 60, some 55⟩ : Stats) with
            avg_30d := some 0 }) (8 / 100) =
        decide_new_price_with_history
          { source := "trovaprezzi", title := "t", url := "u", price_eur := some 100 }
          50 40 (some { (⟨2, some 0, some 60, some 55⟩ : Stats) with
            avg_30d := none }) (8 / 100)) ∧
    ((⟨2, some 0, some 60, some 55⟩ : Stats).min_30d = some 0 →
      rapid_drop_fires (some ⟨2, some 0, some 60, some 55⟩) (8 / 100) 100 = false →
      decide_new_price_with_history
          { source := "trovaprezzi", title := "t", url := "u", price_eur := some 100 }
          50 40 (some ⟨2, some 0, some 60, some 55⟩) (8 / 100) =
        .ok ⟨"ASPETTA", .aspettaSoglie 100 50 40, 0⟩)) :=
  ⟨by decide, ⟨by norm_num, by norm_num⟩,
    C10_zero_stats_like_missing _ 50 40 (8 / 100) 100 ⟨2, some 0, some 60, some 55⟩
      (by decide) (by norm_num) (by norm_num)⟩

/-- Shared computation: good payment keyword, no bad keyword, condition
"come nuovo", photos only, no reputation, no reference price — score 57. -/
theorem trust_come_nuovo_57 (offer : Offer) (cfg : TrustCfg)
    (hg : cfg.keywords_payment_good.any (fun k =>
      strContains (pyLower (offer.title ++ " " ++ offer.extraDescription))
        (pyLower k)) = true)
    (hb : cfg.keywords_payment_bad.any (fun k =>
      strContains (pyLower (offer.title ++ " " ++ offer.extraDescription))
        (pyLower k)) = false)
    (hcond : offer.condition = some "come nuovo")
    (hp : offer.extraHasPhotos = true)
    (hd : offer.extraHasDetails = false)
    (hrep : offer.extraSellerReputation = none)
    (hms : cfg.min_score_to_alert = 70) :
    trust_score_used offer cfg none = ⟨"ASPETTA", .trustBelow 57 70, 57⟩ := by
  have hnu : strContains (pyLower "come nuovo") "nuovo" = true := by decide
  have hcn : strContains (pyLower "come nuovo") "come nuovo" = true := by decide
  unfold trust_score_used
  dsimp only
  rw [hg, hb, hcond, hp, hd, hrep, hms]
  cases htot : offer.total_eur with
  | none => norm_num [hnu, hcn]
  | some t => norm_num [hnu, hcn]

/-- C3 counterexample: good payment keyword (+25), condition "come nuovo"
(which also contains the substring "nuovo", so both +10 and +12 stack),
photos (+10), no reference price — the score is 57, not the claimed 47. -/
theorem C3_counterexample :
    (trust_score_used
        { source := "subito_ingest", title := "Pagamento PayPal disponibile",
          url := "u", condition := some "come nuovo", extraHasPhotos := true }
        { keywords_payment_good := ["paypal"],
          keywords_payment_bad := ["western union"] } none).score = 57 ∧
    (trust_score_used
        { source := "subito_ingest", title := "Pagamento PayPal disponibile",
          url := "u", condition := some "come nuovo", extraHasPhotos := true }
        { keywords_payment_good := ["paypal"],
          keywords_payment_bad := ["western union"] } none).score ≠ 47 := by
  have h := trust_come_nuovo_57
    { source := "subito_ingest", title := "Pagamento PayPal disponibile",
      url := "u", condition := some "come nuovo", extraHasPhotos := true }
    { keywords_payment_good := ["paypal"],
      keywords_payment_bad := ["western union"] }
    (by decide) (by decide) rfl rfl rfl rfl rfl
  rw [h]
  norm_num

/-- C3 (amended): with a good payment keyword matched (+25), no bad keyword,
condition text exactly "come nuovo" (+10 for the contained "nuovo" substring
and +12 for "come nuovo" — the synonym bonuses stack), photos only (+10),
no seller reputation and no reference price, the trust score is 57, below
the default threshold 70, so the verdict is ASPETTA. -/
theorem C3_trust_stacking (offer : Offer) (cfg : TrustCfg)
    (hg : cfg.keywords_payment_good.any (fun k =>
      strContains (pyLower (offer.title ++ " " ++ offer.extraDescription))
        (pyLower k)) = true)
    (hb : cfg.keywords_payment_bad.any (fun k =>
      strContains (pyLower (offer.title ++ " " ++ offer.extraDescription))
        (pyLower k)) = false)
    (hcond : offer.condition = some "come nuovo")
    (hp : offer.extraHasPhotos = true)
    (hd : offer.extraHasDetails = false)
    (hrep : offer.extraSellerReputation = none)
    (hms : cfg.min_score_to_alert = 70) :
    trust_score_used offer cfg none = ⟨"ASPETTA", .trustBelow 57 70, 57⟩ :=
  trust_come_nuovo_57 offer cfg hg hb hcond hp hd hrep hms

/-- C3 witness. -/
theorem C3_trust_stacking_witness :
    (({ keywords_payment_good := ["paypal"],
        keywords_payment_bad := ["western union"] } : TrustCfg).keywords_payment_good.any
      (fun k => strContains
        (pyLower (("Pagamento PayPal disponibile" : String) ++ " " ++ ""))
        (pyLower k)) = true) ∧
    trust_score_used
        { source := "subito_ingest", title := "Pagamento PayPal disponibile",
          url := "u", condition := some "come nuovo", extraHasPhotos := true,
          extraDescription := "" }
        { keywords_payment_good := ["paypal"],
          keywords_payment_bad := ["western union"] } none =
      ⟨"ASPETTA", .trustBelow 57 70, 57⟩ :=
  ⟨by decide,
    C3_trust_stacking
      { source := "subito_ingest", title := "Pagamento PayPal disponibile",
        url := "u", condition := some "come nuovo", extraHasPhotos := true }
      { keywords_payment_good := ["paypal"],
        keywords_payment_bad := ["western union"] }
      (by decide) (by decide) rfl rfl rfl rfl rfl⟩

/-- C6: a "new"-scraped offer matched to a target with a defined total below
half the great-price threshold is flagged by the plausibility guard: the
cycle leaves the durable store untouched (so the offer can never contribute
to any later stats computation) and surfaces it only as a console INFO
notification — no file log entry and no remote alert. -/
theorem C6_plausibility_guard (cfg : WatchCfg) (targets : List Target)
    (db : List OfferRow) (now : ℤ) (off : Offer) (t : Target) (tot : ℚ)
    (hsrc : off.source = "trovaprezzi" ∨ off.source = "idealo")
    (hm : match_target off targets = some t)
    (ht : off.total_eur = some tot)
    (hlow : tot < t.great_price_eur * (50 / 100)) :
    pipeline_watch_run_once cfg targets db now [off] =
      .ok (db,
        if cfg.console_enabled then
          [Notification.console { off with extraParseWarning := some parseWarnMsg }
            ⟨"INFO", .parseWarningText parseWarnMsg, 0⟩]
        else []) ∧
    (∀ db2 ns2, pipeline_watch_run_once cfg targets db now [off] = .ok (db2, ns2) →
      ∀ now2 tn wd dh,
        _compute_stats_new_only db2 now2 tn wd dh =
          _compute_stats_new_only db now2 tn wd dh) := by
  have hP : (off.source = "trovaprezzi" ∨ off.source = "idealo") ∧
      ¬ _is_plausible_new_price tot t.great_price_eur := by
    refine ⟨hsrc, ?_⟩
    simp only [_is_plausible_new_price, decide_eq_true_eq, not_le]
    exact hlow
  have hmain : pipeline_watch_run_once cfg targets db now [off] =
      .ok (db,
        if cfg.console_enabled then
          [Notification.console { off with extraParseWarning := some parseWarnMsg }
            ⟨"INFO", .parseWarningText parseWarnMsg, 0⟩]
        else []) := by
    unfold pipeline_watch_run_once
    simp only [List.foldl]
    unfold storeStep
    rw [hm, ht]
    dsimp only
    rw [decide_eq_true hP]
    simp only [if_true, List.nil_append]
    unfold notifyAll notifyStep
    dsimp only
    have hgate : (off.source = "trovaprezzi" ∨ off.source = "idealo") ∧
        pyStrTruthy (some parseWarnMsg) = true := ⟨hsrc, by decide⟩
    rw [if_pos hgate]
    unfold notifyAll
    cases hc : cfg.console_enabled <;> rfl
  refine ⟨hmain, ?_⟩
  intro db2 ns2 h2 now2 tn wd dh
  rw [hmain] at h2
  cases h2
  rfl

def c6_offer : Offer :=
  { source := "trovaprezzi", title := "RTX 5090 offerta", url := "u",
    price_eur := some 340 }

def c6_target : Target := ⟨"rtx-5090", ["rtx"], 950, 850⟩

/-- C6 witness. -/
theorem C6_plausibility_guard_witness :
    (c6_offer.source = "trovaprezzi" ∨ c6_offer.source = "idealo") ∧
    match_target c6_offer [c6_target] = some c6_target ∧
    c6_offer.total_eur = some 340 ∧
    (340 : ℚ) < c6_target.great_price_eur * (50 / 100) ∧
    (pipeline_watch_run_once {} [c6_target] [] 0 [c6_offer] =
        .ok ([],
          if ({} : WatchCfg).console_enabled then
            [Notification.console
              { c6_offer with extraParseWarning := some parseWarnMsg }
              ⟨"INFO", .parseWarningText parseWarnMsg, 0⟩]
          else []) ∧
      (∀ db2 ns2, pipeline_watch_run_once {} [c6_target] [] 0 [c6_offer] =
          .ok (db2, ns2) →
        ∀ now2 tn wd dh,
          _compute_stats_new_only db2 now2 tn wd dh =
            _compute_stats_new_only [] now2 tn wd dh)) :=
  ⟨Or.inl rfl, by decide, by decide, by norm_num [c6_target],
    C6_plausibility_guard {} [c6_target] [] 0 c6_offer c6_target 340
      (Or.inl rfl) (by decide) (by decide) (by norm_num [c6_target])⟩

/-- C8: on the used-item path the trust scorer is always invoked with a
*defined* reference price: the pipeline passes
`some (used_reference_price ...)`, and that fallback substitutes the
target's good-price threshold whenever `best_new_reference` returns null or
the falsy `0.0`, and the queried minimum otherwise. -/
theorem C8_used_reference_always_defined (cfg : WatchCfg) (db : List OfferRow)
    (now : ℤ) (m : MatchedOffer)
    (hng : ¬((m.offer.source = "trovaprezzi" ∨ m.offer.source = "idealo") ∧
      pyStrTruthy m.offer.extraParseWarning = true))
    (hne : pyEndsWith m.offer.source "_error" = false)
    (hused : _is_used_offer m.offer = true) :
    notifyStep cfg db now m =
      .ok (standard_notifications cfg m.offer
        (trust_score_used m.offer cfg.trust_cfg
          (some (used_reference_price db now m.target)))) ∧
    ((best_new_reference db now m.target.name 7 = none ∨
        best_new_reference db now m.target.name 7 = some 0) →
      used_reference_price db now m.target = m.target.good_price_eur) ∧
    (∀ v : ℚ, best_new_reference db now m.target.name 7 = some v → v ≠ 0 →
      used_reference_price db now m.target = v) := by
  refine ⟨?_, ?_, ?_⟩
  · unfold notifyStep
    rw [if_neg hng, if_neg (by simp [hne]), if_pos hused]
  · intro h
    unfold used_reference_price
    rcases h with h | h <;> simp [h]
  · intro v hv hvne
    unfold used_reference_price
    rw [hv]
    simp [hvne]

def c8_matched : MatchedOffer :=
  ⟨{ source := "subito_ingest", title := "rtx usata", url := "u",
     price_eur := some 500 }, ⟨"rtx-5090", ["rtx"], 950, 850⟩⟩

/-- C8 witness. -/
theorem C8_used_reference_always_defined_witness :
    (¬((c8_matched.offer.source = "trovaprezzi" ∨
        c8_matched.offer.source = "idealo") ∧
      pyStrTruthy c8_matched.offer.extraParseWarning = true)) ∧
    pyEndsWith c8_matched.offer.source "_error" = false ∧
    _is_used_offer c8_matched.offer = true ∧
    (notifyStep {} [] 0 c8_matched =
        .ok (standard_notifications {} c8_matched.offer
          (trust_score_used c8_matched.offer ({} : WatchCfg).trust_cfg
            (some (used_reference_price [] 0 c8_matched.target)))) ∧
      ((best_new_reference [] 0 c8_matched.target.name 7 = none ∨
          best_new_reference [] 0 c8_matched.target.name 7 = some 0) →
        used_reference_price [] 0 c8_matched.target =
          c8_matched.target.good_price_eur) ∧
      (∀ v : ℚ, best_new_reference [] 0 c8_matched.target.name 7 = some v →
        v ≠ 0 → used_reference_price [] 0 c8_matched.target = v)) :=
  ⟨by decide, by decide, by decide,
    C8_used_reference_always_defined {} [] 0 c8_matched
      (by decide) (by decide) (by decide)⟩

/-- C1 counterexample: a valid `/setprice` command arriving from a chat id
("999") different from the allowed one ("123") still mutates the settings
store — only the reply is suppressed.  The claim that a mismatched update
"applies no settings mutation" is false. -/
theorem C1_counterexample :
    (_process_update
        { update_id := 1,
          message := some { text := some "/setprice foo 10", chat_id := some "999" } }
        [] "123").1 = [⟨"foo", "10", "telegram_user"⟩] ∧
    (_process_update
        { update_id := 1,
          message := some { text := some "/setprice foo 10", chat_id := some "999" } }
        [] "123").2 = [] := by
  constructor <;> rfl

/-- C1 (amended): for every polled update whose message chat id differs from
the configured allowed chat id, the core sends no reply and drops the
mismatch silently — but command handling is not gated on the chat id: the
settings outcome of processing the update is identical whatever allowed id
is configured, so a command's mutation is applied even on a mismatch. -/
theorem C1_reply_gated_only (u : Update) (db : SettingsDB) (a1 a2 : String) :
    (incomingChatId u ≠ a1 → (_process_update u db a1).2 = []) ∧
    (_process_update u db a1).1 = (_process_update u db a2).1 := by
  unfold _process_update incomingChatId
  cases u.message with
  | none => exact ⟨fun _ => rfl, rfl⟩
  | some m =>
    dsimp only
    by_cases htext : pyStrip (m.text.getD "") = ""
    · rw [if_pos htext, if_pos htext]
      exact ⟨fun _ => rfl, rfl⟩
    · rw [if_neg htext, if_neg htext]
      cases hresp : (parse_and_handle (pyStrip (m.text.getD "")) "telegram_user" db).1 with
      | none => exact ⟨fun _ => rfl, rfl⟩
      | some resp =>
        dsimp only
        by_cases hinc : m.chat_id.getD "" = ""
        · rw [if_pos hinc, if_pos hinc]
          exact ⟨fun _ => rfl, rfl⟩
        · rw [if_neg hinc, if_neg hinc]
          constructor
          · intro hne
            rw [if_pos (fun h => hne h.symm)]
          · by_cases h1 : a1 = m.chat_id.getD "" <;>
              by_cases h2 : a2 = m.chat_id.getD ""
            · rw [if_neg (fun h => h h1), if_neg (fun h => h h2)]
            · rw [if_neg (fun h => h h1), if_pos (fun h => h2 h)]
            · rw [if_pos (fun h => h1 h), if_neg (fun h => h h2)]
            · rw [if_pos (fun h => h1 h), if_pos (fun h => h2 h)]

/-- C1 witness. -/
theorem C1_reply_gated_only_witness :
    (incomingChatId
        { update_id := 1,
          message := some { text := some "/setprice foo 10", chat_id := some "999" } } ≠
        "123" →
      (_process_update
        { update_id := 1,
          message := some { text := some "/setprice foo 10", chat_id := some "999" } }
        [] "123").2 = []) ∧
    (_process_update
        { update_id := 1,
          message := some { text := some "/setprice foo 10", chat_id := some "999" } }
        [] "123").1 =
      (_process_update
        { update_id := 1,
          message := some { text := some "/setprice foo 10", chat_id := some "999" } }
        [] "999").1 :=
  C1_reply_gated_only
    { update_id := 1,
      message := some { text := some "/setprice foo 10", chat_id := some "999" } }
    [] "123" "999"

/-- The processing fold appends one `processed` event per update, in batch
order, after whatever trace prefix it starts from. -/
theorem cmdStep_foldl_trace (a : String) : ∀ (us : List Update) (db : SettingsDB)
    (sends : List (String × TgResponse)) (tr : List CmdEvent),
    (us.foldl (cmdStep a) (db, sends, tr)).2.2 = tr ++ us.map CmdEvent.processed := by
  intro us
  induction us with
  | nil => intro db sends tr; simp
  | cons u rest ih =>
    intro db sends tr
    simp only [List.foldl, List.map_cons]
    rw [cmdStep]
    dsimp only
    rw [ih]
    simp

/-- The fold of `max` over update ids dominates its seed. -/
theorem le_foldl_maxUpdate : ∀ (l : List Update) (a : ℤ),
    a ≤ l.foldl (fun x v => max x v.update_id) a := by
  intro l
  induction l with
  | nil => intro a; exact le_rfl
  | cons v vs ih =>
    intro a
    exact le_trans (le_max_left a v.update_id) (ih (max a v.update_id))

/-- C5: in a cycle fetching a non-empty batch, the new offset
(max update id + 1) is persisted *before* any command of the batch is
processed — the trace starts with the save event, and the persisted state is
exactly the pre-processing save, so a crash during processing can re-deliver
at most the in-flight batch; given the poll contract (every returned id is
at least the requested offset) a successful cycle never decreases the
persisted offset. -/
theorem C5_offset_saved_before_processing (st : TgState) (db : SettingsDB)
    (allowed : String) (us : List Update) (w : WriteOutcome) (hne : us ≠ []) :
    (commands_run_once st db allowed (some us) w).trace =
      CmdEvent.saved (maxUpdateId us + 1) :: us.map CmdEvent.processed ∧
    (commands_run_once st db allowed (some us) w).state =
      _save_offset st (maxUpdateId us + 1) w ∧
    ((∀ u ∈ us, _load_offset st ≤ u.update_id) → w = .ok →
      _load_offset st ≤
        _load_offset (commands_run_once st db allowed (some us) w).state) := by
  obtain ⟨u, rest, rfl⟩ := List.exists_cons_of_ne_nil hne
  refine ⟨?_, rfl, ?_⟩
  · show ((u :: rest).foldl (cmdStep allowed)
      (db, [], [CmdEvent.saved (maxUpdateId (u :: rest) + 1)])).2.2 = _
    rw [cmdStep_foldl_trace]
    simp
  · intro hids hw
    subst hw
    show _load_offset st ≤ _load_offset (.stored (maxUpdateId (u :: rest) + 1))
    have h1 : _load_offset st ≤ u.update_id := hids u (by simp)
    have h2 : u.update_id ≤ maxUpdateId (u :: rest) :=
      le_foldl_maxUpdate rest u.update_id
    show _load_offset st ≤ maxUpdateId (u :: rest) + 1
    omega

/-- C5 witness. -/
theorem C5_offset_saved_before_processing_witness :
    ([({ update_id := 7 } : Update)] ≠ []) ∧
    ((commands_run_once (.stored 5) [] "123" (some [{ update_id := 7 }]) .ok).trace =
        CmdEvent.saved (maxUpdateId [{ update_id := 7 }] + 1) ::
          [({ update_id := 7 } : Update)].map CmdEvent.processed ∧
      (commands_run_once (.stored 5) [] "123" (some [{ update_id := 7 }]) .ok).state =
        _save_offset (.stored 5) (maxUpdateId [{ update_id := 7 }] + 1) .ok ∧
      ((∀ u ∈ [({ update_id := 7 } : Update)], _load_offset (.stored 5) ≤ u.update_id) →
        WriteOutcome.ok = .ok →
        _load_offset (.stored 5) ≤
          _load_offset (commands_run_once (.stored 5) [] "123"
            (some [{ update_id := 7 }]) .ok).state)) :=
  ⟨by decide,
    C5_offset_saved_before_processing (.stored 5) [] "123" [{ update_id := 7 }]
      .ok (by decide)⟩

/-- C9: a failed offset save is swallowed: the processing outcome of the
cycle (settings mutations, replies, event trace — one processed event per
fetched command) is identical to that of a cycle whose save succeeded, and
after a failed save the next load yields either the previously stored offset
or the default 0 (missing and corrupt state files both load as 0), so the
in-flight batch is merely re-delivered, never a crash. -/
theorem C9_save_failure_isolated (st : TgState) (db : SettingsDB)
    (allowed : String) (apiResult : Option (List Update)) (w : WriteOutcome) :
    (commands_run_once st db allowed apiResult w).settings =
      (commands_run_once st db allowed apiResult .ok).settings ∧
    (commands_run_once st db allowed apiResult w).sends =
      (commands_run_once st db allowed apiResult .ok).sends ∧
    (commands_run_once st db allowed apiResult w).trace =
      (if (get_telegram_updates apiResult (_load_offset st)).1.isEmpty then []
        else [CmdEvent.saved (get_telegram_updates apiResult (_load_offset st)).2]) ++
      (get_telegram_updates apiResult (_load_offset st)).1.map CmdEvent.processed ∧
    (w ≠ .ok →
      _load_offset (commands_run_once st db allowed apiResult w).state =
          _load_offset st ∨
      _load_offset (commands_run_once st db allowed apiResult w).state = 0) ∧
    _load_offset .missing = 0 ∧ _load_offset .malformed = 0 := by
  have htr : ∀ w' : WriteOutcome,
      (commands_run_once st db allowed apiResult w').trace =
        (if (get_telegram_updates apiResult (_load_offset st)).1.isEmpty then []
          else [CmdEvent.saved (get_telegram_updates apiResult (_load_offset st)).2]) ++
        (get_telegram_updates apiResult (_load_offset st)).1.map CmdEvent.processed := by
    intro w'
    match apiResult with
    | none => rfl
    | some [] => rfl
    | some (u :: rest) =>
      show ((u :: rest).foldl (cmdStep allowed) (db, [], _)).2.2 = _
      rw [cmdStep_foldl_trace]
      rfl
  refine ⟨?_, ?_, htr w, ?_, rfl, rfl⟩
  · match apiResult with
    | none => rfl
    | some [] => rfl
    | some (u :: rest) => rfl
  · match apiResult with
    | none => rfl
    | some [] => rfl
    | some (u :: rest) => rfl
  · intro hw
    match apiResult with
    | none => exact Or.inl rfl
    | some [] => exact Or.inl rfl
    | some (u :: rest) =>
      match w, hw with
      | .failBeforeWrite, _ => exact Or.inl rfl
      | .failTorn, _ => exact Or.inr rfl

def c9_update : Update :=
  { update_id := 7, message := some { text := some "/prices", chat_id := some "123" } }

/-- C9 witness. -/
theorem C9_save_failure_isolated_witness :
    (commands_run_once (.stored 5) [] "123" (some [c9_update]) .failTorn).settings =
      (commands_run_once (.stored 5) [] "123" (some [c9_update]) .ok).settings ∧
    (commands_run_once (.stored 5) [] "123" (some [c9_update]) .failTorn).sends =
      (commands_run_once (.stored 5) [] "123" (some [c9_update]) .ok).sends ∧
    (commands_run_once (.stored 5) [] "123" (some [c9_update]) .failTorn).trace =
      (if (get_telegram_updates (some [c9_update]) (_load_offset (.stored 5))).1.isEmpty
        then []
        else [CmdEvent.saved
          (get_telegram_updates (some [c9_update]) (_load_offset (.stored 5))).2]) ++
      (get_telegram_updates (some [c9_update])
          (_load_offset (.stored 5))).1.map CmdEvent.processed ∧
    (WriteOutcome.failTorn ≠ .ok →
      _load_offset (commands_run_once (.stored 5) [] "123"
          (some [c9_update]) .failTorn).state = _load_offset (.stored 5) ∨
      _load_offset (commands_run_once (.stored 5) [] "123"
          (some [c9_update]) .failTorn).state = 0) ∧
    _load_offset .missing = 0 ∧ _load_offset .malformed = 0 :=
  C9_save_failure_isolated (.stored 5) [] "123" (some [c9_update]) .failTorn

end DealHunter
